import Mathlib

/-!
Verification development for the `what-if-engine` 2D rigid-body physics core.

The Rust sources under `src/physics-engine/src/` (`physics.rs`, `physics/shape.rs`,
`lib.rs`, `levels.rs`) are embedded shallowly: `f64` becomes `ℚ` (with an explicit
two-point extension `XRat` for the infinite mass/inertia of static bodies),
`Rc`/`Weak` shape references become integer entity ids with an explicit liveness
check, and in-place mutation becomes state passing.

The repository modules `geometry.rs`, `physics/compute.rs`, `physics/binding.rs`,
`physics/shape/circle.rs` and `physics/shape/polygon.rs` are not available; the
parts of them that the embedded code calls are modelled from the spec.  Where the
spec fixes only an interface (collision detection, binding formation, point
resolution, the square-root based `norm`/`unit`), the model keeps the operation as
a field of an explicit parameter record `Geom`, and the theorems below hold for
every instantiation of that record.
-/

namespace WhatIf

/-- 2D point / vector over ℚ.  Modelled from the spec: `geometry.rs` is not under
`src/`; the spec (§3) describes Point and Vector as 2D scalar pairs with
componentwise arithmetic. -/
structure Vect where
  x : ℚ
  y : ℚ
deriving DecidableEq, Repr

instance : Add Vect := ⟨fun a b => ⟨a.x + b.x, a.y + b.y⟩⟩
instance : Sub Vect := ⟨fun a b => ⟨a.x - b.x, a.y - b.y⟩⟩
instance : Neg Vect := ⟨fun a => ⟨-a.x, -a.y⟩⟩
instance : HMul Vect ℚ Vect := ⟨fun v k => ⟨v.x * k, v.y * k⟩⟩

/-- The zero vector (`Vector::ZERO`). -/
def Vect.zero : Vect := ⟨0, 0⟩

/-- Modelled from the spec: dot product of the geometry kernel. -/
def Vect.dot (a b : Vect) : ℚ := a.x * b.x + a.y * b.y

/-- Modelled from the spec: scalar 2D cross product of the geometry kernel. -/
def Vect.cross (a b : Vect) : ℚ := a.x * b.y - a.y * b.x

/-- Modelled from the spec: perpendicular rotation by 90 degrees. -/
def Vect.perpendicular (a : Vect) : Vect := ⟨-a.y, a.x⟩

/-- Modelled from the spec: `a.to(b)` is the vector from `a` to `b`. -/
def Vect.to (a b : Vect) : Vect := b - a

/-- A rational extended with a single infinity, embedding the `f64` values
`INFINITY` (used for static mass/inertia) and finite reals. -/
inductive XRat where
  | fin (q : ℚ)
  | inf
deriving DecidableEq, Repr

/-- `f64::recip`: the reciprocal, with `recip ∞ = 0` as for IEEE doubles. -/
def XRat.recip : XRat → ℚ
  | .fin q => q⁻¹
  | .inf => 0

/-- `f64::is_finite`. -/
def XRat.isFinite : XRat → Bool
  | .fin _ => true
  | .inf => false

/-- Division of a finite value by an `XRat`, with `q / ∞ = 0` as for IEEE
doubles (the dividends in the embedded code are always finite). -/
def XRat.div (q : ℚ) : XRat → ℚ
  | .fin m => q / m
  | .inf => 0

/-- `CollisionData` from `physics/shape.rs`: per-shape kinematic and mass
state. -/
structure CollisionData where
  centroid : Vect
  mass : XRat
  inertia : XRat
  velocity : Vect
  angular_velocity : ℚ
deriving DecidableEq, Repr

/-- The kind-specific geometry of a shape.  Modelled from the spec:
`shape/circle.rs` and `shape/polygon.rs` are not under `src/`; a circle stores a
radius, a polygon an ordered vertex loop (stored here as offsets from the
centroid so that translation and rotation act through the centroid and the
orientation angle). -/
inductive ShapeGeom where
  | circle (radius : ℚ)
  | polygon (offsets : List Vect)
deriving DecidableEq, Repr

/-- A shape: geometry, accumulated rotation angle, and embedded
`CollisionData`.  `rotate` adds to `orientation` (spec §4.1: rotation mutates
geometry and centroid consistently, i.e. it spins the shape about its
centroid), `translate` moves the centroid. -/
structure Shape where
  geom : ShapeGeom
  orientation : ℚ
  data : CollisionData
deriving DecidableEq, Repr

/-- `Collidable::rotate`. -/
def Shape.rotate (s : Shape) (angle : ℚ) : Shape :=
  { s with orientation := s.orientation + angle }

/-- `Collidable::translate`. -/
def Shape.translate (s : Shape) (translation : Vect) : Shape :=
  { s with data := { s.data with centroid := s.data.centroid + translation } }

/-- Modelled from the spec: `PointOnShape` of `physics/binding.rs` — a
shape-relative coordinate (local offset from the centroid plus rotation
bookkeeping). -/
structure PointOnShape where
  offset : Vect
  baseAngle : ℚ
deriving DecidableEq, Repr

/-- Modelled from the spec: the `Binding` enum of `physics/binding.rs`.
`physics.rs` matches on `Binding::Hinge { first, .. }` and
`Binding::Rigid { first: (p1, p2), .. }`; the spec (§3) says a Hinge pins one
point per shape and a Rigid pins two point-references per shape. -/
inductive Binding where
  | Hinge (first second : PointOnShape)
  | Rigid (first second : PointOnShape × PointOnShape)
deriving DecidableEq, Repr

/-- Modelled from the spec: the `Unbound` enum of `physics/binding.rs` — a
pending anchor (`physics.rs` matches `Unbound::Hinge(point)` and
`Unbound::Rigid(point)`). -/
inductive Unbound where
  | Hinge (point : PointOnShape)
  | Rigid (point : PointOnShape)
deriving DecidableEq, Repr

/-- `compute::simplex::Vertex`, the contact descriptor: the penetration vector
and the two supporting points that generated it (spec §4.2). -/
structure Vertex where
  point : Vect
  created_from : Vect × Vect
deriving DecidableEq, Repr

/-- `EntityCfg` from `physics.rs`. -/
structure EntityCfg where
  is_erasable : Bool
  is_bindable : Bool
  is_static : Bool
deriving DecidableEq, Repr

/-- `EntityCfg::default()`. -/
def EntityCfg.default : EntityCfg :=
  { is_erasable := true, is_bindable := true, is_static := false }

/-- `Entity` from `physics.rs`.  The `Weak<RefCell<dyn Collidable>>` partner
reference of a binding is embedded as the partner entity's integer id; the
`Rc` liveness test `strong_count() > 0` becomes membership of that id among
the ids of the entities currently stored in the engine. -/
structure Entity where
  bindings : List (Binding × Nat)
  unbound : List Unbound
  is_erasable : Bool
  is_bindable : Bool
  is_static : Bool
  shape : Shape
  id : Nat
deriving DecidableEq, Repr

/-- `Entity::new`. -/
def Entity.new (shape : Shape) (cfg : EntityCfg) (id : Nat) : Entity :=
  { bindings := [], unbound := [], shape := shape,
    is_static := cfg.is_static, is_erasable := cfg.is_erasable,
    is_bindable := cfg.is_bindable, id := id }

/-- Modelled from the spec: the operations of the repository modules that are
not under `src/` — the square-root based `unit`/`norm` and the epsilon
predicate of `geometry.rs`, the collision query of `physics/compute.rs`
(simplex-based support-function overlap test, spec §4.2), binding formation,
joint enforcement and point resolution of `physics/binding.rs` (spec §4.3-4.4,
with the matching rule of `try_bind` explicitly implementation-defined), and
the shape constructors of `shape/circle.rs` / `shape/polygon.rs`.  The spec
fixes only the interfaces of these operations, so they are kept as fields of
this parameter record and every theorem below holds for each instantiation. -/
structure Geom where
  unitV : Vect → Vect
  normV : Vect → ℚ
  isCloseZero : Vect → Bool
  collision : Shape → Shape → Option Vertex
  includes : Shape → Vect → Bool
  tryBind : Shape → Unbound → Shape → Option Binding
  enforce : Binding → Shape → Shape → ℚ → ℚ → ℚ → Bool → Bool → Shape × Shape
  pointOn : PointOnShape → Shape → Vect
  newHinge : Shape → Vect → Unbound
  newRigid : Shape → Vect → Unbound
  circleNew : Vect → ℚ → Shape
  polygonNew : List Vect → Shape

/-- `DisplayMessage` from `physics.rs` (colors, which are random presentation
state, are not modelled; the claims do not mention them). -/
structure DisplayMessage where
  polygons : List Shape
  circles : List Shape
  flags : List Shape
  rigid_bindings : List Vect
  hinges : List Vect
  unbound_rigid_bindings : List Vect
  unbound_hinges : List Vect
deriving DecidableEq, Repr

/-- `Engine` from `physics.rs`.  The render side-lists `polygons`/`circles`
hold weak shape references, embedded as entity ids; `nextId` is the id
allocator replacing pointer identity. -/
structure Engine where
  entities : List Entity
  polygons : List Nat
  circles : List Nat
  main_ball_starting_position : Vect
  flags : List Shape
  restitution_mulipiler : ℚ
  friction_mulipiler : ℚ
  gravity_mulipiler : ℚ
  static_friction_enabled : Bool
  dynamic_friction_enabled : Bool
  nextId : Nat

/-- `geometry::Circle` (used by `levels.rs`). -/
structure GCircle where
  center : Vect
  radius : ℚ
deriving DecidableEq, Repr

/-- `levels::Entity`. -/
structure LevelEntity (S : Type) where
  shape : S
  is_static : Bool
  is_bindable : Bool

/-- `levels::Level`. -/
structure Level where
  initial_ball_position : Vect
  circles : List (LevelEntity GCircle)
  polygons : List (LevelEntity (List Vect))
  flags_positions : List Vect

/-- `lib.rs` `Circle` (the wasm-facing record). -/
structure InitCircle where
  radius : ℚ
  center : Vect
  is_static : Bool
  is_bindable : Bool

/-- `lib.rs` `Polygon` (the wasm-facing record). -/
structure InitPolygon where
  points : List Vect
  is_static : Bool
  is_bindable : Bool

/-- `lib.rs` `Init` (the wasm-facing construction record). -/
structure Init where
  ball_position : Vect
  flags : List Vect
  circles : List InitCircle
  polygons : List InitPolygon

/-- `GRAVITY_COEFFICIENT = 0.00000981` from `physics.rs`. -/
def GRAVITY_COEFFICIENT : ℚ := 981 / 100000000

/-- `MOVEMENT_COEFFICIENT = 0.00004` from `physics.rs`. -/
def MOVEMENT_COEFFICIENT : ℚ := 4 / 100000

/-- `RESTITUTION = 0.2` from `Collidable::resolve_collision_with`. -/
def RESTITUTION : ℚ := 1 / 5

/-- Modelled from the spec: `compute::impulse` of `physics/compute.rs` (not
under `src/`).  Spec §4.3 step 2: the effective relative closing speed along
the contact normal, divided by the sum of the two bodies' inverse mass and
inverse-inertia-weighted angular terms, scaled by the factor passed in the
last argument (the callers pass `1 + restitution` or a friction
coefficient). -/
def compute.impulse (first second : CollisionData)
    (first_offset second_offset normal relative_velocity : Vect) (factor : ℚ) : ℚ :=
  -(factor * relative_velocity.dot normal) /
    (first.mass.recip + second.mass.recip
      + (first_offset.cross normal) ^ 2 * first.inertia.recip
      + (second_offset.cross normal) ^ 2 * second.inertia.recip)

/-- The impulse stage of `Collidable::resolve_collision_with`
(`physics/shape.rs` lines 38-112): compute the contact offsets, normal and
relative velocity, the normal impulse, and — when the normal impulse is
positive — the tiered friction impulse, and apply both to the two bodies'
velocities and angular velocities. -/
def impulseStage (G : Geom) (first second : CollisionData) (collision : Vertex)
    (restitution_mulipiler friction_mulipiler : ℚ)
    (static_friction_enabled dynamic_friction_enabled : Bool) :
    CollisionData × CollisionData :=
  let restitution := restitution_mulipiler * RESTITUTION
  let first_offset := first.centroid.to collision.created_from.1
  let second_offset := second.centroid.to collision.created_from.2
  let normal := G.unitV collision.point
  let first_velocity := first.velocity - (first_offset * first.angular_velocity).perpendicular
  let second_velocity := second.velocity - (second_offset * second.angular_velocity).perpendicular
  let relative_velocity := second_velocity - first_velocity
  let impulse := compute.impulse first second first_offset second_offset normal
    relative_velocity (restitution + 1)
  if 0 < impulse then
    let friction_normal := -normal.perpendicular
    let static_friction_impulse := compute.impulse first second first_offset second_offset
      friction_normal relative_velocity 1
    let friction_impulse :=
      if impulse * friction_mulipiler * (1 / 10000) < static_friction_impulse then
        if dynamic_friction_enabled then
          compute.impulse first second first_offset second_offset friction_normal
            relative_velocity (min (50 * G.normV collision.point * friction_mulipiler) 1)
        else 0
      else
        if static_friction_enabled then static_friction_impulse else 0
    ({ first with
        velocity := first.velocity - normal * XRat.div impulse first.mass
          - friction_normal * XRat.div friction_impulse first.mass,
        angular_velocity := first.angular_velocity
          - XRat.div (impulse * first_offset.cross normal) first.inertia
          - XRat.div (friction_impulse * first_offset.cross friction_normal) first.inertia },
     { second with
        velocity := second.velocity + normal * XRat.div impulse second.mass
          + friction_normal * XRat.div friction_impulse second.mass,
        angular_velocity := second.angular_velocity
          + XRat.div (impulse * second_offset.cross normal) second.inertia
          + XRat.div (friction_impulse * second_offset.cross friction_normal) second.inertia })
  else (first, second)

/-- The positional-correction stage of `Collidable::resolve_collision_with`
(`physics/shape.rs` lines 114-122): if either body has finite mass, push the
two shapes apart along the contact normal by the clamped penetration, split
in proportion to their inverse masses. -/
def positionalCorrection (G : Geom) (self other : Shape) (collision : Vertex)
    (microseconds : ℚ) : Shape × Shape :=
  let normal := G.unitV collision.point
  if self.data.mass.isFinite || other.data.mass.isFinite then
    let translation := normal * min (G.normV collision.point) (1 / 1000000 * microseconds)
    let i1 := self.data.mass.recip
    let i2 := other.data.mass.recip
    let i_sum := i1 + i2
    (self.translate (-(translation * (i1 / i_sum))), other.translate (translation * (i2 / i_sum)))
  else (self, other)

/-- `Collidable::resolve_collision_with` from `physics/shape.rs`, lines 28-123,
embedded as a pure function returning the updated pair of shapes: the impulse
stage on the two bodies' `CollisionData`, followed by the positional
correction on the shapes carrying the updated data. -/
def Shape.resolve_collision_with (G : Geom) (self other : Shape) (collision : Vertex)
    (microseconds restitution_mulipiler friction_mulipiler : ℚ)
    (static_friction_enabled dynamic_friction_enabled : Bool) : Shape × Shape :=
  let pair := impulseStage G self.data other.data collision restitution_mulipiler
    friction_mulipiler static_friction_enabled dynamic_friction_enabled
  positionalCorrection G { self with data := pair.1 } { other with data := pair.2 }
    collision microseconds

/-- `Collidable::collide` from `physics/shape.rs`: run the collision query,
treat a numerically-zero penetration as no contact, otherwise resolve. -/
def Shape.collide (G : Geom) (self other : Shape)
    (microseconds restitution_mulipiler friction_mulipiler : ℚ)
    (static_friction_enabled dynamic_friction_enabled : Bool) : Shape × Shape :=
  match G.collision self other with
  | none => (self, other)
  | some collision =>
    if G.isCloseZero collision.point then (self, other)
    else Shape.resolve_collision_with G self other collision microseconds restitution_mulipiler
      friction_mulipiler static_friction_enabled dynamic_friction_enabled

/-- `Collidable::update_position` from `physics/shape.rs`, lines 156-164.  The
local `velocity` is read before the gravity increment, and the final
`translate` uses that pre-increment value, exactly as in the source. -/
def Shape.update_position (s : Shape) (microseconds gravity_multiplier : ℚ) : Shape :=
  let velocity := s.data.velocity
  let angular_velocity := s.data.angular_velocity
  let s := { s with data := { s.data with velocity := s.data.velocity
    + (⟨0, gravity_multiplier * GRAVITY_COEFFICIENT * microseconds⟩ : Vect) } }
  let s := s.rotate (angular_velocity * MOVEMENT_COEFFICIENT * microseconds)
  s.translate (velocity * MOVEMENT_COEFFICIENT * microseconds)

/-- `Entity::try_bind` from `physics.rs`: each pending anchor is matched
against the new shape; a successful match removes the anchor and appends a
binding holding the new shape's reference (embedded as its id). -/
def Entity.try_bind (G : Geom) (e : Entity) (target : Shape) (targetId : Nat) : Entity :=
  let acc := e.unbound.foldl (fun acc u =>
    match G.tryBind e.shape u target with
    | some binding => (acc.1 ++ [(binding, targetId)], acc.2)
    | none => (acc.1, acc.2 ++ [u])) (e.bindings, ([] : List Unbound))
  { e with bindings := acc.1, unbound := acc.2 }

/-- `Engine::add_entity` from `physics.rs`, lines 399-416: a static entity
gets infinite mass and inertia; every existing entity attempts to bind its
pending anchors against the new shape; the new entity is pushed at the end.
Returns the engine and the new entity's id (the weak reference the source
returns). -/
def Engine.add_entity (G : Geom) (engine : Engine) (shape : Shape)
    (entity_cfg : EntityCfg) : Engine × Nat :=
  let shape :=
    if entity_cfg.is_static then
      { shape with data := { shape.data with mass := XRat.inf, inertia := XRat.inf } }
    else shape
  let id := engine.nextId
  let entities := engine.entities.map (fun e => e.try_bind G shape id)
  let engine := { engine with
    entities := entities ++ [Entity.new shape entity_cfg id]
    nextId := id + 1 }
  (engine, id)

/-- `Engine::add_circle` from `physics.rs`. -/
def Engine.add_circle (G : Geom) (engine : Engine) (circle : Shape) : Engine :=
  let p := engine.add_entity G circle EntityCfg.default
  { p.1 with circles := p.1.circles ++ [p.2] }

/-- `Engine::add_polygon` from `physics.rs`. -/
def Engine.add_polygon (G : Geom) (engine : Engine) (polygon : Shape) : Engine :=
  let p := engine.add_entity G polygon EntityCfg.default
  { p.1 with polygons := p.1.polygons ++ [p.2] }

/-- `Engine::erase_at` from `physics.rs`, lines 428-438: find the first entity
containing the point; remove it only if it is erasable. -/
def Engine.erase_at (G : Geom) (engine : Engine) (point : Vect) : Engine :=
  match engine.entities.findIdx? (fun e => G.includes e.shape point) with
  | none => engine
  | some i =>
    match engine.entities[i]? with
    | none => engine
    | some e =>
      if e.is_erasable then { engine with entities := engine.entities.eraseIdx i }
      else engine

/-- Replace the entity at an index by `f` of it (models `self.entities[i]`
in-place mutation). -/
def modifyAt (f : Entity → Entity) : List Entity → Nat → List Entity
  | [], _ => []
  | e :: rest, 0 => f e :: rest
  | e :: rest, Nat.succ i => e :: modifyAt f rest i

/-- `Engine::add_hinge` from `physics.rs`. -/
def Engine.add_hinge (G : Geom) (engine : Engine) (point : Vect) : Engine :=
  match engine.entities.findIdx? (fun e => G.includes e.shape point && e.is_bindable) with
  | none => engine
  | some i =>
    let f := fun e => { e with unbound := e.unbound ++ [G.newHinge e.shape point] }
    { engine with entities := modifyAt f engine.entities i }

/-- `Engine::add_rigid` from `physics.rs`. -/
def Engine.add_rigid (G : Geom) (engine : Engine) (point : Vect) : Engine :=
  match engine.entities.findIdx? (fun e => G.includes e.shape point && e.is_bindable) with
  | none => engine
  | some i =>
    let f := fun e => { e with unbound := e.unbound ++ [G.newRigid e.shape point] }
    { engine with entities := modifyAt f engine.entities i }

/-- `Engine::set_gravity_multipier`. -/
def Engine.set_gravity_multipier (engine : Engine) (value : ℚ) : Engine :=
  { engine with gravity_mulipiler := value }

/-- `Engine::set_restitution_multipier`. -/
def Engine.set_restitution_multipier (engine : Engine) (value : ℚ) : Engine :=
  { engine with restitution_mulipiler := value }

/-- `Engine::set_friction_multipier`. -/
def Engine.set_friction_multipier (engine : Engine) (value : ℚ) : Engine :=
  { engine with friction_mulipiler := value }

/-- `Engine::set_static_friction`. -/
def Engine.set_static_friction (engine : Engine) (enabled : Bool) : Engine :=
  { engine with static_friction_enabled := enabled }

/-- `Engine::set_dynamic_friction`. -/
def Engine.set_dynamic_friction (engine : Engine) (enabled : Bool) : Engine :=
  { engine with dynamic_friction_enabled := enabled }

/-- The owner-side display points of an entity's rigid bindings (source:
`prune_and_send_shapes`, `Binding::Rigid` arm — the midpoint of the two
reference points resolved on the owning shape).  No liveness check is made,
exactly as in the source. -/
def rigidPoints (G : Geom) (e : Entity) : List Vect :=
  e.bindings.filterMap (fun bt =>
    match bt.1 with
    | Binding.Rigid (p1, p2) _ =>
      some ((G.pointOn p1 e.shape + G.pointOn p2 e.shape) * ((1 : ℚ) / 2))
    | _ => none)

/-- The owner-side display points of an entity's hinge bindings (source:
`prune_and_send_shapes`, `Binding::Hinge` arm).  No liveness check is made,
exactly as in the source. -/
def hingePoints (G : Geom) (e : Entity) : List Vect :=
  e.bindings.filterMap (fun bt =>
    match bt.1 with
    | Binding.Hinge first _ => some (G.pointOn first e.shape)
    | _ => none)

/-- The display points of an entity's pending rigid anchors. -/
def unboundRigidPoints (G : Geom) (e : Entity) : List Vect :=
  e.unbound.filterMap (fun u =>
    match u with
    | Unbound.Rigid point => some (G.pointOn point e.shape)
    | _ => none)

/-- The display points of an entity's pending hinge anchors. -/
def unboundHingePoints (G : Geom) (e : Entity) : List Vect :=
  e.unbound.filterMap (fun u =>
    match u with
    | Unbound.Hinge point => some (G.pointOn point e.shape)
    | _ => none)

/-- Resolve a weak shape reference (an id) against the current entity list:
`Weak::upgrade` succeeds exactly when the owning entity is still stored. -/
def findShapeById (l : List Entity) (i : Nat) : Option Shape :=
  (l.find? (fun e => e.id == i)).map Entity.shape

/-- `to_geometry` from `physics.rs`: prune the render side-list of dead weak
references, and collect the shapes of the surviving ones. -/
def toGeometry (entities : List Entity) (ids : List Nat) : List Nat × List Shape :=
  let live := ids.filter (fun i => (findShapeById entities i).isSome)
  (live, live.filterMap (findShapeById entities))

/-- `Engine::prune_and_send_shapes` from `physics.rs`, lines 347-391.  The
binding loop pushes one display point per stored binding with no liveness
check of the partner reference (it only reads owner-side points); only the
render side-lists are pruned. -/
def Engine.prune_and_send_shapes (G : Geom) (engine : Engine) : Engine × DisplayMessage :=
  let rigid_bindings := (engine.entities.map (rigidPoints G)).flatten
  let hinges := (engine.entities.map (hingePoints G)).flatten
  let unbound_rigid_bindings := (engine.entities.map (unboundRigidPoints G)).flatten
  let unbound_hinges := (engine.entities.map (unboundHingePoints G)).flatten
  let polys := toGeometry engine.entities engine.polygons
  let circs := toGeometry engine.entities engine.circles
  ({ engine with polygons := polys.1, circles := circs.1 },
   { polygons := polys.2, circles := circs.2, flags := engine.flags,
     rigid_bindings := rigid_bindings, hinges := hinges,
     unbound_rigid_bindings := unbound_rigid_bindings, unbound_hinges := unbound_hinges })

/-- The per-entity part of the integrate step (`run_iteration` lines 260-266):
non-static entities get `update_position`, static ones are untouched. -/
def procEntity (gravity_mulipiler microseconds : ℚ) (e : Entity) : Entity :=
  if e.is_static then e
  else { e with shape := e.shape.update_position microseconds gravity_mulipiler }

/-- The integrate-and-cull pass (`run_iteration` lines 256-270): `retain_mut`
with the `is_main_ball` flag true only for the first element; an entity is
retained when its post-integration centroid height is above `-5.0` or it is
the first entity. -/
def integrateCull (gravity_mulipiler microseconds : ℚ) : Bool → List Entity → List Entity
  | _, [] => []
  | is_main_ball, e :: rest =>
    let e := procEntity gravity_mulipiler microseconds e
    if decide (-5 < e.shape.data.centroid.y) || is_main_ball then
      e :: integrateCull gravity_mulipiler microseconds false rest
    else integrateCull gravity_mulipiler microseconds false rest

/-- The main-ball bounds check (`run_iteration` lines 274-282): if the ball
left the horizontal bound in absolute value or fell below the vertical bound,
reset its centroid to the spawn point and zero both velocities. -/
def ballRespawn (start : Vect) (ball : Entity) : Entity :=
  let data := ball.shape.data
  if 5 < abs data.centroid.x ∨ data.centroid.y < -5 then
    { ball with shape := { ball.shape with data :=
        { data with centroid := start, angular_velocity := 0, velocity := Vect.zero } } }
  else ball

/-- The body of the pairwise loop for one (current, later) entity pair
(`run_iteration` lines 299-323): dead bindings of the current entity are
pruned (`retain` on liveness), and the pair collides unless a surviving
binding of the current entity references the later entity's shape. -/
def pairAt (G : Geom) (microseconds restitution_mulipiler friction_mulipiler : ℚ)
    (static_friction_enabled dynamic_friction_enabled : Bool) (alive : List Nat)
    (this other : Entity) : Entity × Entity :=
  let bindings := this.bindings.filter (fun bt => alive.contains bt.2)
  let is_boud_to_other := bindings.any (fun bt => bt.2 == other.id)
  if is_boud_to_other then ({ this with bindings := bindings }, other)
  else
    let pair := Shape.collide G this.shape other.shape microseconds restitution_mulipiler
      friction_mulipiler static_friction_enabled dynamic_friction_enabled
    ({ this with bindings := bindings, shape := pair.1 }, { other with shape := pair.2 })

/-- The inner `rest.iter_mut().for_each` loop of the pairwise pass: the
current entity is threaded through `pairAt` against every later entity. -/
def innerLoop (G : Geom) (microseconds restitution_mulipiler friction_mulipiler : ℚ)
    (static_friction_enabled dynamic_friction_enabled : Bool) (alive : List Nat) :
    Entity → List Entity → Entity × List Entity
  | this, [] => (this, [])
  | this, o :: os =>
    let p := pairAt G microseconds restitution_mulipiler friction_mulipiler
      static_friction_enabled dynamic_friction_enabled alive this o
    let q := innerLoop G microseconds restitution_mulipiler friction_mulipiler
      static_friction_enabled dynamic_friction_enabled alive p.1 os
    (q.1, p.2 :: q.2)

/-- Write a shape back through a weak reference (the partner side of a joint
enforcement). -/
def updateShapeById (l : List Entity) (i : Nat) (s : Shape) : List Entity :=
  l.map (fun e => if e.id == i then { e with shape := s } else e)

/-- The constraint-enforcement loop of the pairwise pass (`run_iteration`
lines 326-338): for each stored binding, if the partner reference upgrades,
enforce the joint against it; a dead binding is skipped but not removed.  By
the ordering invariant documented in `physics.rs` (bindings only reference
entities occurring later in the vector), the partner is looked up among the
later entities. -/
def enforceLoop (G : Geom) (microseconds restitution_mulipiler friction_mulipiler : ℚ)
    (static_friction_enabled dynamic_friction_enabled : Bool) :
    List (Binding × Nat) → Shape → List Entity → Shape × List Entity
  | [], shape, rest => (shape, rest)
  | bt :: bs, shape, rest =>
    match findShapeById rest bt.2 with
    | some otherShape =>
      let p := G.enforce bt.1 shape otherShape microseconds restitution_mulipiler
        friction_mulipiler static_friction_enabled dynamic_friction_enabled
      enforceLoop G microseconds restitution_mulipiler friction_mulipiler
        static_friction_enabled dynamic_friction_enabled bs p.1
        (updateShapeById rest bt.2 p.2)
    | none =>
      enforceLoop G microseconds restitution_mulipiler friction_mulipiler
        static_friction_enabled dynamic_friction_enabled bs shape rest

/-- The full pairwise pass (`run_iteration` lines 293-342), iterated with an
explicit step count: for each entity in order, run the inner collision loop
against all later entities, then enforce its bindings.  The source's `while`
loop advances an index over the entity vector, whose length never changes
during the pass; the count mirrors that index (the caller passes the list
length, and the inner loops preserve length, so the count never runs out
before the list does). -/
def pairwisePassAux (G : Geom) (microseconds restitution_mulipiler friction_mulipiler : ℚ)
    (static_friction_enabled dynamic_friction_enabled : Bool) (alive : List Nat) :
    Nat → List Entity → List Entity
  | 0, l => l
  | _ + 1, [] => []
  | count + 1, this :: rest =>
    let p := innerLoop G microseconds restitution_mulipiler friction_mulipiler
      static_friction_enabled dynamic_friction_enabled alive this rest
    let q := enforceLoop G microseconds restitution_mulipiler friction_mulipiler
      static_friction_enabled dynamic_friction_enabled p.1.bindings p.1.shape p.2
    { p.1 with shape := q.1 } :: pairwisePassAux G microseconds restitution_mulipiler
      friction_mulipiler static_friction_enabled dynamic_friction_enabled alive count q.2

/-- The pairwise pass over a whole entity list. -/
def pairwisePass (G : Geom) (microseconds restitution_mulipiler friction_mulipiler : ℚ)
    (static_friction_enabled dynamic_friction_enabled : Bool) (alive : List Nat)
    (l : List Entity) : List Entity :=
  pairwisePassAux G microseconds restitution_mulipiler friction_mulipiler
    static_friction_enabled dynamic_friction_enabled alive l.length l

/-- Steps 2-3 of the tick (`run_iteration` lines 272-290): bounds-check the
main ball — the first entity — and consume the flags overlapping the (possibly
reset) ball, leaving every other entity untouched. -/
def respawnStep (G : Geom) (start : Vect) (flags : List Shape) :
    List Entity → List Entity × List Shape
  | [] => ([], flags)
  | ball :: rest =>
    let ball := ballRespawn start ball
    (ball :: rest, flags.filter (fun flag => (G.collision ball.shape flag).isNone))

/-- `Engine::run_iteration` from `physics.rs`, lines 256-345.  The source
indexes `self.entities[0]` unconditionally for the respawn check (panicking on
an empty list); the model pattern-matches instead, and claim C10 shows the
entity list is never empty in a reachable state. -/
def Engine.run_iteration (G : Geom) (engine : Engine) (microseconds : ℚ) :
    Engine × DisplayMessage :=
  let entities1 := integrateCull engine.gravity_mulipiler microseconds true engine.entities
  let step2 := respawnStep G engine.main_ball_starting_position engine.flags entities1
  let alive := step2.1.map Entity.id
  let entities3 := pairwisePass G microseconds engine.restitution_mulipiler
    engine.friction_mulipiler engine.static_friction_enabled
    engine.dynamic_friction_enabled alive step2.1
  Engine.prune_and_send_shapes G { engine with entities := entities3, flags := step2.2 }

/-- `Engine::new` from `physics.rs`, lines 183-254: build the empty engine
with unit multipliers and both friction modes enabled, expand each flag
position into a small square polygon, add the main ball (bindable, not
erasable, not static), then the level polygons and circles (never erasable,
with their supplied static/bindable flags), and run the snapshot pass once. -/
def Engine.new (G : Geom) (lvl : Level) : Engine :=
  let engine : Engine :=
    { entities := [], circles := [], polygons := [],
      main_ball_starting_position := lvl.initial_ball_position,
      flags := lvl.flags_positions.map (fun p =>
        G.polygonNew [⟨p.x, p.y⟩, ⟨p.x + 1/10, p.y⟩, ⟨p.x + 1/10, p.y + 1/10⟩,
          ⟨p.x, p.y + 1/10⟩]),
      friction_mulipiler := 1, restitution_mulipiler := 1, gravity_mulipiler := 1,
      dynamic_friction_enabled := true, static_friction_enabled := true, nextId := 0 }
  let p := engine.add_entity G (G.circleNew lvl.initial_ball_position (1/10))
    { is_bindable := true, is_erasable := false, is_static := false }
  let engine := { p.1 with circles := p.1.circles ++ [p.2] }
  let engine := lvl.polygons.foldl (fun acc ent =>
    let q := acc.add_entity G (G.polygonNew ent.shape)
      { is_bindable := ent.is_bindable, is_static := ent.is_static, is_erasable := false }
    { q.1 with polygons := q.1.polygons ++ [q.2] }) engine
  let engine := lvl.circles.foldl (fun acc ent =>
    let q := acc.add_entity G (G.circleNew ent.shape.center ent.shape.radius)
      { is_bindable := ent.is_bindable, is_static := ent.is_static, is_erasable := false }
    { q.1 with circles := q.1.circles ++ [q.2] }) engine
  (engine.prune_and_send_shapes G).1

/-- `Engine::create` from `lib.rs`, lines 199-233: convert the wasm-facing
`Init` record into a `Level` and construct the physics engine.  The polygon
arm mirrors the source exactly, including line 229, which reads
`is_static: poly.is_bindable`. -/
def Engine.create (G : Geom) (init : Init) : Engine :=
  Engine.new G
    { circles := init.circles.map (fun circle =>
        { shape := { center := circle.center, radius := circle.radius },
          is_bindable := circle.is_bindable, is_static := circle.is_static }),
      flags_positions := init.flags,
      initial_ball_position := init.ball_position,
      polygons := init.polygons.map (fun poly =>
        { shape := poly.points,
          is_bindable := poly.is_bindable,
          is_static := poly.is_bindable }) }

/-- The engine states reachable from a level through the public operations
(tick, mutation calls and configuration setters), for every instantiation of
the modelled-from-spec operations. -/
inductive Reachable (lvl : Level) : Engine → Prop where
  | new (G : Geom) : Reachable lvl (Engine.new G lvl)
  | run_iteration {s} (G : Geom) (microseconds : ℚ) :
      Reachable lvl s → Reachable lvl (s.run_iteration G microseconds).1
  | add_circle {s} (G : Geom) (c : Shape) :
      Reachable lvl s → Reachable lvl (s.add_circle G c)
  | add_polygon {s} (G : Geom) (p : Shape) :
      Reachable lvl s → Reachable lvl (s.add_polygon G p)
  | erase_at {s} (G : Geom) (p : Vect) :
      Reachable lvl s → Reachable lvl (s.erase_at G p)
  | add_hinge {s} (G : Geom) (p : Vect) :
      Reachable lvl s → Reachable lvl (s.add_hinge G p)
  | add_rigid {s} (G : Geom) (p : Vect) :
      Reachable lvl s → Reachable lvl (s.add_rigid G p)
  | set_gravity {s} (v : ℚ) :
      Reachable lvl s → Reachable lvl (s.set_gravity_multipier v)
  | set_restitution {s} (v : ℚ) :
      Reachable lvl s → Reachable lvl (s.set_restitution_multipier v)
  | set_friction {s} (v : ℚ) :
      Reachable lvl s → Reachable lvl (s.set_friction_multipier v)
  | set_static_friction {s} (b : Bool) :
      Reachable lvl s → Reachable lvl (s.set_static_friction b)
  | set_dynamic_friction {s} (b : Bool) :
      Reachable lvl s → Reachable lvl (s.set_dynamic_friction b)

/-- The invariant of claim C10: the entity list starts with the main-ball
entity created at construction (the entity with id 0, which is the first id
the engine allocates) and that entity is not erasable. -/
def mainBallFirst (engine : Engine) : Prop :=
  match engine.entities with
  | [] => False
  | e :: _ => e.id = 0 ∧ e.is_erasable = false

/-- A concrete unit-circle shape with unit mass and inertia, used to
instantiate the theorems below at concrete inputs. -/
def shape0 : Shape :=
  { geom := ShapeGeom.circle 1, orientation := 0,
    data := { centroid := ⟨0, 0⟩, mass := XRat.fin 1, inertia := XRat.fin 1,
              velocity := Vect.zero, angular_velocity := 0 } }

/-- A concrete static (infinite mass and inertia) shape. -/
def staticShape : Shape :=
  { geom := ShapeGeom.circle 1, orientation := 0,
    data := { centroid := ⟨3, 0⟩, mass := XRat.inf, inertia := XRat.inf,
              velocity := Vect.zero, angular_velocity := 0 } }

/-- A concrete head-on contact used to instantiate the resolution theorems:
two unit-mass bodies approaching along the vertical axis. -/
def shapeDown : Shape :=
  { geom := ShapeGeom.circle 1, orientation := 0,
    data := { centroid := ⟨0, 2⟩, mass := XRat.fin 1, inertia := XRat.fin 1,
              velocity := ⟨0, -1⟩, angular_velocity := 0 } }

/-- A concrete upward-moving unit-mass body for the same contact. -/
def shapeUp : Shape :=
  { geom := ShapeGeom.circle 1, orientation := 0,
    data := { centroid := ⟨0, 0⟩, mass := XRat.fin 1, inertia := XRat.fin 1,
              velocity := ⟨0, 1⟩, angular_velocity := 0 } }

/-- A concrete contact descriptor whose penetration vector is the unit
vertical vector and whose supporting points coincide at the contact. -/
def vtx0 : Vertex := { point := ⟨0, 1⟩, created_from := (⟨0, 1⟩, ⟨0, 1⟩) }

/-- A trivial instantiation of the modelled-from-spec operations, used to
evaluate the engine at concrete inputs: no pair ever collides, no point is
contained in any shape, and no anchor ever binds. -/
def G0 : Geom :=
  { unitV := fun v => v
    normV := fun _ => 0
    isCloseZero := fun _ => false
    collision := fun _ _ => none
    includes := fun _ _ => false
    tryBind := fun _ _ _ => none
    enforce := fun _ s o _ _ _ _ _ => (s, o)
    pointOn := fun _ _ => Vect.zero
    newHinge := fun _ p => Unbound.Hinge { offset := p, baseAngle := 0 }
    newRigid := fun _ p => Unbound.Rigid { offset := p, baseAngle := 0 }
    circleNew := fun c r =>
      { geom := ShapeGeom.circle r, orientation := 0,
        data := { centroid := c, mass := XRat.fin 1, inertia := XRat.fin 1,
                  velocity := Vect.zero, angular_velocity := 0 } }
    polygonNew := fun _ => shape0 }

/-- A trivial level: just the main ball at the origin. -/
def lvl0 : Level :=
  { initial_ball_position := ⟨0, 0⟩, circles := [], polygons := [], flags_positions := [] }

/-- A concrete hinge binding reference used in counterexamples. -/
def hinge0 : Binding :=
  Binding.Hinge { offset := ⟨0, 0⟩, baseAngle := 0 } { offset := ⟨0, 0⟩, baseAngle := 0 }

/-- An entity that owns a hinge binding whose partner (id 1) no longer exists
anywhere in the engine — the state left behind when the partner entity has
been erased: the binding's weak reference is dead.  The owner is the last (and
only) entity of the list, so the pairwise pass has no later entity to trigger
its lazy pruning.  (It is static and bindable, like a static level polygon
that carried an anchor bound to a later-added, since-erased shape.) -/
def deadBindingEntity : Entity :=
  { bindings := [(hinge0, 1)], unbound := [],
    is_erasable := false, is_bindable := true, is_static := true,
    shape := shape0, id := 0 }

/-- A current-side entity holding a live binding to the entity with id 1. -/
def eA : Entity :=
  { bindings := [(hinge0, 1)], unbound := [], is_erasable := true,
    is_bindable := true, is_static := false, shape := shape0, id := 0 }

/-- A later-side entity with id 1 (the live partner of `eA`'s binding). -/
def eB : Entity :=
  { bindings := [], unbound := [], is_erasable := true,
    is_bindable := true, is_static := false, shape := shapeDown, id := 1 }

/-- An engine holding only `deadBindingEntity`. -/
def deadBindingEngine : Engine :=
  { entities := [deadBindingEntity], polygons := [], circles := [],
    main_ball_starting_position := ⟨0, 0⟩, flags := [],
    restitution_mulipiler := 1, friction_mulipiler := 1, gravity_mulipiler := 1,
    static_friction_enabled := true, dynamic_friction_enabled := true, nextId := 2 }

/-- A concrete construction record with a single polygon whose supplied flags
are `is_static = true`, `is_bindable = false`. -/
def init9 : Init :=
  { ball_position := ⟨0, 0⟩, flags := [], circles := [],
    polygons := [{ points := [⟨1, 1⟩, ⟨2, 1⟩, ⟨2, 2⟩],
                   is_static := true, is_bindable := false }] }

/-- A concrete entity whose shape centroid is at (0, -6), matching the spec's
out-of-bounds test position. -/
def ballOut : Entity :=
  { bindings := [], unbound := [], is_erasable := false, is_bindable := true,
    is_static := false,
    shape :=
      { geom := ShapeGeom.circle (1/10), orientation := 0,
        data := { centroid := ⟨0, -6⟩, mass := XRat.fin 1, inertia := XRat.fin 1,
                  velocity := ⟨2, 3⟩, angular_velocity := 7 } },
    id := 0 }

/-- The relative velocity at a contact: each body's linear velocity minus the
tangential velocity induced by its angular velocity at its contact offset
(spec §4.3 step 1). -/
def contactRelativeVelocity (first second : CollisionData) (collision : Vertex) : Vect :=
  (second.velocity
      - (second.centroid.to collision.created_from.2 * second.angular_velocity).perpendicular)
    - (first.velocity
      - (first.centroid.to collision.created_from.1 * first.angular_velocity).perpendicular)

/-- The normal impulse of a contact (spec §4.3 step 2): the impulse along the
unit penetration direction with factor `1 + restitution_multiplier * 0.2`. -/
def contactNormalImpulse (G : Geom) (first second : CollisionData) (collision : Vertex)
    (restitution_mulipiler : ℚ) : ℚ :=
  compute.impulse first second
    (first.centroid.to collision.created_from.1)
    (second.centroid.to collision.created_from.2)
    (G.unitV collision.point)
    (contactRelativeVelocity first second collision)
    (restitution_mulipiler * RESTITUTION + 1)

/-- The static-friction impulse bound of a contact (spec §4.3 step 3): the
impulse along the perpendicular of the normal with coefficient 1. -/
def contactStaticFrictionImpulse (G : Geom) (first second : CollisionData)
    (collision : Vertex) : ℚ :=
  compute.impulse first second
    (first.centroid.to collision.created_from.1)
    (second.centroid.to collision.created_from.2)
    (-(G.unitV collision.point).perpendicular)
    (contactRelativeVelocity first second collision) 1

/-- The dynamic-friction impulse of a sliding contact (spec §4.3 step 3): the
impulse along the perpendicular of the normal with coefficient
`min(1, 50 * penetration_magnitude * friction_multiplier)`. -/
def contactDynamicFrictionImpulse (G : Geom) (first second : CollisionData)
    (collision : Vertex) (friction_mulipiler : ℚ) : ℚ :=
  compute.impulse first second
    (first.centroid.to collision.created_from.1)
    (second.centroid.to collision.created_from.2)
    (-(G.unitV collision.point).perpendicular)
    (contactRelativeVelocity first second collision)
    (min (50 * G.normV collision.point * friction_mulipiler) 1)

/-- The translation vector of the positional correction (spec §4.3 step 4):
the unit contact normal scaled by the penetration magnitude clamped to
`1e-6 * time_step`. -/
def correctionTranslation (G : Geom) (collision : Vertex) (microseconds : ℚ) : Vect :=
  G.unitV collision.point * min (G.normV collision.point) (1 / 1000000 * microseconds)

/-- The friction tier selection, written from the claim/spec's words: the
contact is sliding exactly when the static-friction impulse exceeds
`normal_impulse * friction_multiplier * 1e-4`; a sliding contact receives the
dynamic-friction impulse if dynamic friction is enabled and none otherwise; a
sticking contact receives the static-friction impulse if static friction is
enabled and none otherwise. -/
def contactFrictionChoice (G : Geom) (first second : CollisionData) (collision : Vertex)
    (restitution_mulipiler friction_mulipiler : ℚ)
    (static_friction_enabled dynamic_friction_enabled : Bool) : ℚ :=
  if contactNormalImpulse G first second collision restitution_mulipiler
      * friction_mulipiler * (1 / 10000)
      < contactStaticFrictionImpulse G first second collision then
    if dynamic_friction_enabled then
      contactDynamicFrictionImpulse G first second collision friction_mulipiler
    else 0
  else
    if static_friction_enabled then
      contactStaticFrictionImpulse G first second collision
    else 0

/-! Helper lemmas about the embedded arithmetic. -/

theorem Vect.hmul_def (v : Vect) (k : ℚ) : v * k = ⟨v.x * k, v.y * k⟩ := rfl

theorem Vect.add_def (a b : Vect) : a + b = ⟨a.x + b.x, a.y + b.y⟩ := rfl

theorem Vect.sub_def (a b : Vect) : a - b = ⟨a.x - b.x, a.y - b.y⟩ := rfl

theorem Vect.neg_def (a : Vect) : -a = ⟨-a.x, -a.y⟩ := rfl

theorem Vect.hmul_zero (v : Vect) : v * (0 : ℚ) = Vect.zero := by
  simp [Vect.hmul_def, Vect.zero]

theorem Vect.sub_zero_vect (v : Vect) : v - Vect.zero = v := by
  simp [Vect.sub_def, Vect.zero]

theorem Vect.add_zero_vect (v : Vect) : v + Vect.zero = v := by
  simp [Vect.add_def, Vect.zero]

theorem Vect.neg_zero_vect : -Vect.zero = Vect.zero := by
  simp [Vect.neg_def, Vect.zero]

theorem XRat.div_inf (q : ℚ) : XRat.div q XRat.inf = 0 := rfl

theorem XRat.recip_inf : XRat.inf.recip = 0 := rfl

theorem Shape.translate_zero (s : Shape) : s.translate Vect.zero = s := by
  obtain ⟨g, o, c, m, i, v, w⟩ := s
  simp [Shape.translate, Vect.add_zero_vect]

/-- The impulse stage leaves a body with infinite mass and inertia unchanged
(first position). -/
theorem impulseStage_static_first (G : Geom) (first second : CollisionData)
    (collision : Vertex) (rm fm : ℚ) (sfe dfe : Bool)
    (hm : first.mass = XRat.inf) (hi : first.inertia = XRat.inf) :
    (impulseStage G first second collision rm fm sfe dfe).1 = first := by
  obtain ⟨c, m, i, v, w⟩ := first
  dsimp only at hm hi
  subst hm hi
  unfold impulseStage
  simp only [apply_ite Prod.fst]
  split <;> simp [XRat.div, Vect.hmul_zero, Vect.sub_zero_vect, sub_zero]

/-- The impulse stage leaves a body with infinite mass and inertia unchanged
(second position). -/
theorem impulseStage_static_second (G : Geom) (first second : CollisionData)
    (collision : Vertex) (rm fm : ℚ) (sfe dfe : Bool)
    (hm : second.mass = XRat.inf) (hi : second.inertia = XRat.inf) :
    (impulseStage G first second collision rm fm sfe dfe).2 = second := by
  obtain ⟨c, m, i, v, w⟩ := second
  dsimp only at hm hi
  subst hm hi
  unfold impulseStage
  simp only [apply_ite Prod.snd]
  split <;> simp [XRat.div, Vect.hmul_zero, Vect.add_zero_vect, add_zero]

/-- The positional correction does not move a body with infinite mass (first
position). -/
theorem positionalCorrection_static_first (G : Geom) (self other : Shape)
    (collision : Vertex) (microseconds : ℚ) (hm : self.data.mass = XRat.inf) :
    (positionalCorrection G self other collision microseconds).1 = self := by
  unfold positionalCorrection
  simp only [hm, XRat.recip, XRat.isFinite, Bool.false_or]
  split <;>
    simp [zero_div, Vect.hmul_zero, Vect.neg_zero_vect, Shape.translate_zero]

/-- The positional correction does not move a body with infinite mass (second
position). -/
theorem positionalCorrection_static_second (G : Geom) (self other : Shape)
    (collision : Vertex) (microseconds : ℚ) (hm : other.data.mass = XRat.inf) :
    (positionalCorrection G self other collision microseconds).2 = other := by
  unfold positionalCorrection
  simp only [hm, XRat.recip, XRat.isFinite, Bool.or_false]
  split <;>
    simp [zero_div, Vect.hmul_zero, Shape.translate_zero]

/-- A body with infinite mass and inertia is returned unchanged (velocity,
angular velocity, centroid and all) by a resolution pass in the first
position. -/
theorem resolve_static_first (G : Geom) (self other : Shape) (collision : Vertex)
    (microseconds rm fm : ℚ) (sfe dfe : Bool)
    (hm : self.data.mass = XRat.inf) (hi : self.data.inertia = XRat.inf) :
    (Shape.resolve_collision_with G self other collision microseconds rm fm sfe dfe).1
      = self := by
  unfold Shape.resolve_collision_with
  dsimp only
  rw [impulseStage_static_first G self.data other.data collision rm fm sfe dfe hm hi]
  exact positionalCorrection_static_first G _ _ collision microseconds hm

/-- A body with infinite mass and inertia is returned unchanged by a
resolution pass in the second position. -/
theorem resolve_static_second (G : Geom) (self other : Shape) (collision : Vertex)
    (microseconds rm fm : ℚ) (sfe dfe : Bool)
    (hm : other.data.mass = XRat.inf) (hi : other.data.inertia = XRat.inf) :
    (Shape.resolve_collision_with G self other collision microseconds rm fm sfe dfe).2
      = other := by
  unfold Shape.resolve_collision_with
  dsimp only
  rw [impulseStage_static_second G self.data other.data collision rm fm sfe dfe hm hi]
  exact positionalCorrection_static_second G _ _ collision microseconds hm

/-- Claim C1: an entity created with `is_static = true` has its mass and
rotational inertia set to infinity at creation (`Engine::add_entity`), and a
body whose mass and inertia are infinite is left completely unchanged —
linear velocity, angular velocity and position — by a collision resolution
pass (`Collidable::resolve_collision_with`), whichever side of the contact it
is on. -/
theorem c1_static_never_moved (G : Geom) :
    (∀ (engine : Engine) (shape : Shape) (cfg : EntityCfg), cfg.is_static = true →
      ((engine.add_entity G shape cfg).1.entities.getLast?).map
          (fun e => (e.shape.data.mass, e.shape.data.inertia))
        = some (XRat.inf, XRat.inf)) ∧
    (∀ (self other : Shape) (collision : Vertex) (μs rm fm : ℚ) (sfe dfe : Bool),
      self.data.mass = XRat.inf → self.data.inertia = XRat.inf →
      (Shape.resolve_collision_with G self other collision μs rm fm sfe dfe).1 = self) ∧
    (∀ (self other : Shape) (collision : Vertex) (μs rm fm : ℚ) (sfe dfe : Bool),
      other.data.mass = XRat.inf → other.data.inertia = XRat.inf →
      (Shape.resolve_collision_with G self other collision μs rm fm sfe dfe).2 = other) := by
  refine ⟨?_, ?_, ?_⟩
  · intro engine shape cfg h
    simp [Engine.add_entity, h, Entity.new]
  · intro self other collision μs rm fm sfe dfe hm hi
    exact resolve_static_first G self other collision μs rm fm sfe dfe hm hi
  · intro self other collision μs rm fm sfe dfe hm hi
    exact resolve_static_second G self other collision μs rm fm sfe dfe hm hi

/-- Witness for C1 at a concrete static body and a concrete contact. -/
theorem c1_static_never_moved_witness :
    (Shape.resolve_collision_with G0 staticShape shapeUp vtx0 1 1 1 true true).1
        = staticShape ∧
    staticShape.data.mass = XRat.inf :=
  ⟨(c1_static_never_moved G0).2.1 staticShape shapeUp vtx0 1 1 1 true true rfl rfl, rfl⟩

/-- Translation moves the centroid by the given vector. -/
theorem Shape.translate_centroid (s : Shape) (v : Vect) :
    (s.translate v).data.centroid = s.data.centroid + v := rfl

theorem Vect.add_neg_eq_sub (a b : Vect) : a + -b = a - b := by
  simp [Vect.add_def, Vect.neg_def, Vect.sub_def, sub_eq_add_neg]

/-- The impulse stage never changes a body's centroid, mass or inertia. -/
theorem impulseStage_preserves (G : Geom) (first second : CollisionData) (collision : Vertex)
    (rm fm : ℚ) (sfe dfe : Bool) :
    ((impulseStage G first second collision rm fm sfe dfe).1.centroid = first.centroid
      ∧ (impulseStage G first second collision rm fm sfe dfe).1.mass = first.mass
      ∧ (impulseStage G first second collision rm fm sfe dfe).1.inertia = first.inertia)
    ∧ ((impulseStage G first second collision rm fm sfe dfe).2.centroid = second.centroid
      ∧ (impulseStage G first second collision rm fm sfe dfe).2.mass = second.mass
      ∧ (impulseStage G first second collision rm fm sfe dfe).2.inertia = second.inertia) := by
  unfold impulseStage
  dsimp only
  split <;> simp

/-- With at least one finite mass, the positional correction translates the
two shapes by the clamped penetration split by inverse-mass share. -/
theorem positionalCorrection_eq (G : Geom) (self other : Shape) (collision : Vertex)
    (microseconds : ℚ)
    (hfin : (self.data.mass.isFinite || other.data.mass.isFinite) = true) :
    positionalCorrection G self other collision microseconds
      = (self.translate (-(correctionTranslation G collision microseconds
            * (self.data.mass.recip / (self.data.mass.recip + other.data.mass.recip)))),
         other.translate (correctionTranslation G collision microseconds
            * (other.data.mass.recip / (self.data.mass.recip + other.data.mass.recip)))) := by
  unfold positionalCorrection correctionTranslation
  dsimp only
  rw [if_pos hfin]

/-- With two infinite masses, the positional correction is skipped. -/
theorem positionalCorrection_none (G : Geom) (self other : Shape) (collision : Vertex)
    (microseconds : ℚ) (h1 : self.data.mass = XRat.inf) (h2 : other.data.mass = XRat.inf) :
    positionalCorrection G self other collision microseconds = (self, other) := by
  unfold positionalCorrection
  dsimp only
  rw [if_neg]
  rw [h1, h2]
  simp [XRat.isFinite]

/-- The total relative displacement of the two corrected centroids. -/
theorem Vect.correction_total (c1 c2 T : Vect) (k1 k2 : ℚ) (h : k1 + k2 = 1) :
    (c2 + T * k2) - (c1 - T * k1) = (c2 - c1) + T := by
  simp only [Vect.add_def, Vect.sub_def, Vect.hmul_def, Vect.mk.injEq]
  exact ⟨by linear_combination T.x * h, by linear_combination T.y * h⟩

/-- Claim C2: for a resolved contact with positive normal impulse, the
friction tier is selected exactly as the spec states — sliding when the
static-friction impulse (coefficient 1 along the perpendicular of the normal)
exceeds `normal_impulse * friction_multiplier * 1e-4`, receiving the
dynamic-friction impulse (coefficient `min(1, 50 * penetration * fm)`) only
when dynamic friction is enabled; sticking otherwise, receiving the
static-friction impulse only when static friction is enabled — and the normal
impulse together with the chosen friction impulse are what the impulse stage
applies to both bodies' velocities and angular velocities. -/
theorem c2_friction_tiers (G : Geom) (first second : CollisionData) (collision : Vertex)
    (rm fm : ℚ) (sfe dfe : Bool)
    (himp : 0 < contactNormalImpulse G first second collision rm) :
    (impulseStage G first second collision rm fm sfe dfe).1.velocity
      = first.velocity
        - G.unitV collision.point
          * XRat.div (contactNormalImpulse G first second collision rm) first.mass
        - (-(G.unitV collision.point).perpendicular)
          * XRat.div (contactFrictionChoice G first second collision rm fm sfe dfe) first.mass
    ∧ (impulseStage G first second collision rm fm sfe dfe).1.angular_velocity
      = first.angular_velocity
        - XRat.div (contactNormalImpulse G first second collision rm
            * (first.centroid.to collision.created_from.1).cross (G.unitV collision.point))
            first.inertia
        - XRat.div (contactFrictionChoice G first second collision rm fm sfe dfe
            * (first.centroid.to collision.created_from.1).cross
              (-(G.unitV collision.point).perpendicular))
            first.inertia
    ∧ (impulseStage G first second collision rm fm sfe dfe).2.velocity
      = second.velocity
        + G.unitV collision.point
          * XRat.div (contactNormalImpulse G first second collision rm) second.mass
        + (-(G.unitV collision.point).perpendicular)
          * XRat.div (contactFrictionChoice G first second collision rm fm sfe dfe) second.mass
    ∧ (impulseStage G first second collision rm fm sfe dfe).2.angular_velocity
      = second.angular_velocity
        + XRat.div (contactNormalImpulse G first second collision rm
            * (second.centroid.to collision.created_from.2).cross (G.unitV collision.point))
            second.inertia
        + XRat.div (contactFrictionChoice G first second collision rm fm sfe dfe
            * (second.centroid.to collision.created_from.2).cross
              (-(G.unitV collision.point).perpendicular))
            second.inertia := by
  have himp' : 0 < compute.impulse first second
      (first.centroid.to collision.created_from.1)
      (second.centroid.to collision.created_from.2)
      (G.unitV collision.point)
      ((second.velocity
          - (second.centroid.to collision.created_from.2 * second.angular_velocity).perpendicular)
        - (first.velocity
          - (first.centroid.to collision.created_from.1 * first.angular_velocity).perpendicular))
      (rm * RESTITUTION + 1) := by
    simpa [contactNormalImpulse, contactRelativeVelocity] using himp
  unfold impulseStage
  dsimp only
  rw [if_pos himp']
  simp only [contactNormalImpulse, contactFrictionChoice, contactStaticFrictionImpulse,
    contactDynamicFrictionImpulse, contactRelativeVelocity]
  exact ⟨trivial, trivial, trivial, trivial⟩

/-- Witness for C2 at a concrete head-on contact of two unit-mass bodies
(normal impulse 6/5 > 0). -/
theorem c2_friction_tiers_witness :
    (impulseStage G0 shapeUp.data shapeDown.data vtx0 1 1 true true).1.velocity
      = shapeUp.data.velocity
        - G0.unitV vtx0.point
          * XRat.div (contactNormalImpulse G0 shapeUp.data shapeDown.data vtx0 1)
            shapeUp.data.mass
        - (-(G0.unitV vtx0.point).perpendicular)
          * XRat.div (contactFrictionChoice G0 shapeUp.data shapeDown.data vtx0 1 1 true true)
            shapeUp.data.mass :=
  (c2_friction_tiers G0 shapeUp.data shapeDown.data vtx0 1 1 true true (by
    norm_num [contactNormalImpulse, contactRelativeVelocity, compute.impulse, Vect.dot,
      Vect.cross, Vect.to, Vect.sub_def, Vect.hmul_def, Vect.perpendicular, XRat.recip,
      RESTITUTION, shapeUp, shapeDown, vtx0, G0])).1

/-- Claim C3: when at least one body has finite (positive) mass, the
positional correction of a resolution pass translates the bodies apart along
the contact normal by a total of `min(penetration, 1e-6 * time_step)` — each
body moving by its inverse-mass share, so an infinite-mass body does not move
and the clamped amount never exceeds the penetration — and when both bodies
have infinite mass no positional correction is applied at all. -/
theorem c3_positional_correction (G : Geom) (self other : Shape) (collision : Vertex)
    (μs rm fm : ℚ) (sfe dfe : Bool)
    (hpos1 : ∀ q, self.data.mass = XRat.fin q → 0 < q)
    (hpos2 : ∀ q, other.data.mass = XRat.fin q → 0 < q) :
    ((self.data.mass.isFinite = true ∨ other.data.mass.isFinite = true) →
      (Shape.resolve_collision_with G self other collision μs rm fm sfe dfe).1.data.centroid
          = self.data.centroid
            - correctionTranslation G collision μs
              * (self.data.mass.recip / (self.data.mass.recip + other.data.mass.recip))
      ∧ (Shape.resolve_collision_with G self other collision μs rm fm sfe dfe).2.data.centroid
          = other.data.centroid
            + correctionTranslation G collision μs
              * (other.data.mass.recip / (self.data.mass.recip + other.data.mass.recip))
      ∧ (Shape.resolve_collision_with G self other collision μs rm fm sfe dfe).2.data.centroid
          - (Shape.resolve_collision_with G self other collision μs rm fm sfe dfe).1.data.centroid
          = (other.data.centroid - self.data.centroid) + correctionTranslation G collision μs
      ∧ (self.data.mass = XRat.inf →
          (Shape.resolve_collision_with G self other collision μs rm fm sfe dfe).1.data.centroid
            = self.data.centroid)
      ∧ (other.data.mass = XRat.inf →
          (Shape.resolve_collision_with G self other collision μs rm fm sfe dfe).2.data.centroid
            = other.data.centroid))
    ∧ min (G.normV collision.point) (1 / 1000000 * μs) ≤ G.normV collision.point
    ∧ (0 ≤ G.normV collision.point → 0 ≤ μs →
        0 ≤ min (G.normV collision.point) (1 / 1000000 * μs))
    ∧ (self.data.mass = XRat.inf → other.data.mass = XRat.inf →
        (Shape.resolve_collision_with G self other collision μs rm fm sfe dfe).1.data.centroid
            = self.data.centroid
        ∧ (Shape.resolve_collision_with G self other collision μs rm fm sfe dfe).2.data.centroid
            = other.data.centroid) := by
  set P := impulseStage G self.data other.data collision rm fm sfe dfe with hPdef
  have hpre := impulseStage_preserves G self.data other.data collision rm fm sfe dfe
  rw [← hPdef] at hpre
  have hres : Shape.resolve_collision_with G self other collision μs rm fm sfe dfe
      = positionalCorrection G { self with data := P.1 } { other with data := P.2 }
          collision μs := rfl
  refine ⟨?_, min_le_left _ _, ?_, ?_⟩
  · intro hfin
    have hfinB : (({ self with data := P.1 } : Shape).data.mass.isFinite
        || ({ other with data := P.2 } : Shape).data.mass.isFinite) = true := by
      dsimp only
      rw [hpre.1.2.1, hpre.2.2.1]
      rcases hfin with h | h <;> simp [h]
    have hpc := positionalCorrection_eq G { self with data := P.1 } { other with data := P.2 }
        collision μs hfinB
    have e1 : (Shape.resolve_collision_with G self other collision μs rm fm sfe dfe).1.data.centroid
        = self.data.centroid
          - correctionTranslation G collision μs
            * (self.data.mass.recip / (self.data.mass.recip + other.data.mass.recip)) := by
      rw [hres, hpc]
      dsimp only
      rw [Shape.translate_centroid]
      dsimp only
      rw [hpre.1.1, hpre.1.2.1, hpre.2.2.1, Vect.add_neg_eq_sub]
    have e2 : (Shape.resolve_collision_with G self other collision μs rm fm sfe dfe).2.data.centroid
        = other.data.centroid
          + correctionTranslation G collision μs
            * (other.data.mass.recip / (self.data.mass.recip + other.data.mass.recip)) := by
      rw [hres, hpc]
      dsimp only
      rw [Shape.translate_centroid]
      dsimp only
      rw [hpre.2.1, hpre.1.2.1, hpre.2.2.1]
    have hsum : 0 < self.data.mass.recip + other.data.mass.recip := by
      rcases hfin with h | h
      · cases hm : self.data.mass with
        | fin q =>
          have hq' : 0 < q⁻¹ := inv_pos.mpr (hpos1 q hm)
          have h2 : 0 ≤ other.data.mass.recip := by
            cases hm2 : other.data.mass with
            | fin p => simpa [XRat.recip] using le_of_lt (inv_pos.mpr (hpos2 p hm2))
            | inf => simp [XRat.recip]
          have hfq : (XRat.fin q).recip = q⁻¹ := rfl
          rw [hfq]
          linarith
        | inf => rw [hm] at h; simp [XRat.isFinite] at h
      · cases hm : other.data.mass with
        | fin q =>
          have hq' : 0 < q⁻¹ := inv_pos.mpr (hpos2 q hm)
          have h1 : 0 ≤ self.data.mass.recip := by
            cases hm1 : self.data.mass with
            | fin p => simpa [XRat.recip] using le_of_lt (inv_pos.mpr (hpos1 p hm1))
            | inf => simp [XRat.recip]
          have hfq : (XRat.fin q).recip = q⁻¹ := rfl
          rw [hfq]
          linarith
        | inf => rw [hm] at h; simp [XRat.isFinite] at h
    have hone : self.data.mass.recip / (self.data.mass.recip + other.data.mass.recip)
        + other.data.mass.recip / (self.data.mass.recip + other.data.mass.recip) = 1 := by
      rw [div_add_div_same, div_self hsum.ne']
    refine ⟨e1, e2, ?_, ?_, ?_⟩
    · rw [e1, e2]
      exact Vect.correction_total _ _ _ _ _ (by linarith [hone])
    · intro hminf
      rw [e1]
      have : self.data.mass.recip = 0 := by rw [hminf]; rfl
      rw [this, zero_div, Vect.hmul_zero]
      exact Vect.sub_zero_vect _
    · intro hminf
      rw [e2]
      have : other.data.mass.recip = 0 := by rw [hminf]; rfl
      rw [this, zero_div, Vect.hmul_zero]
      exact Vect.add_zero_vect _
  · intro hn hμ
    exact le_min hn (mul_nonneg (by norm_num) hμ)
  · intro h1 h2
    have h1' : ({ self with data := P.1 } : Shape).data.mass = XRat.inf := by
      dsimp only; rw [hpre.1.2.1]; exact h1
    have h2' : ({ other with data := P.2 } : Shape).data.mass = XRat.inf := by
      dsimp only; rw [hpre.2.2.1]; exact h2
    have hnone := positionalCorrection_none G { self with data := P.1 }
        { other with data := P.2 } collision μs h1' h2'
    rw [hres, hnone]
    exact ⟨hpre.1.1, hpre.2.1⟩

/-- Witness for C3 at a concrete contact of two finite unit-mass bodies: the
relative displacement equals the full correction translation. -/
theorem c3_positional_correction_witness :
    (Shape.resolve_collision_with G0 shapeUp shapeDown vtx0 1 1 1 true true).2.data.centroid
        - (Shape.resolve_collision_with G0 shapeUp shapeDown vtx0 1 1 1 true true).1.data.centroid
      = (shapeDown.data.centroid - shapeUp.data.centroid) + correctionTranslation G0 vtx0 1 :=
  ((c3_positional_correction G0 shapeUp shapeDown vtx0 1 1 1 true true
      (by intro q h; simp [shapeUp, XRat.fin.injEq] at h; linarith)
      (by intro q h; simp [shapeDown, XRat.fin.injEq] at h; linarith)).1
    (Or.inl rfl)).2.2.1

/-- Claim C6 (amended): one integration step adds the gravity increment
`gravity_multiplier * GRAVITY_COEFFICIENT * time_step` to the linear
velocity, rotates the shape by its angular velocity scaled by the movement
coefficient and the time step, and translates it by its velocity as read
BEFORE the gravity increment, scaled the same way — the source binds
`velocity` before updating it and passes that pre-increment value to
`translate`. -/
theorem c6_update_position (s : Shape) (microseconds gravity_multiplier : ℚ) :
    (s.update_position microseconds gravity_multiplier).data.velocity
        = s.data.velocity
          + (⟨0, gravity_multiplier * GRAVITY_COEFFICIENT * microseconds⟩ : Vect)
    ∧ (s.update_position microseconds gravity_multiplier).orientation
        = s.orientation + s.data.angular_velocity * MOVEMENT_COEFFICIENT * microseconds
    ∧ (s.update_position microseconds gravity_multiplier).data.centroid
        = s.data.centroid + s.data.velocity * MOVEMENT_COEFFICIENT * microseconds
    ∧ (s.update_position microseconds gravity_multiplier).geom = s.geom
    ∧ (s.update_position microseconds gravity_multiplier).data.angular_velocity
        = s.data.angular_velocity :=
  ⟨rfl, rfl, rfl, rfl, rfl⟩

/-- Counterexample to C6 as stated: at a concrete shape with zero initial
velocity, the integration step translates the centroid by zero — not by the
gravity-updated velocity scaled by the movement coefficient and the time
step, which is nonzero here. -/
theorem c6_counterexample :
    ¬ ((shape0.update_position 1000000 1).data.centroid
        = shape0.data.centroid
          + (shape0.update_position 1000000 1).data.velocity
            * MOVEMENT_COEFFICIENT * (1000000 : ℚ)) := by
  simp only [shape0, Shape.update_position, Shape.rotate, Shape.translate, Vect.add_def,
    Vect.hmul_def, Vect.zero, GRAVITY_COEFFICIENT, MOVEMENT_COEFFICIENT, Vect.mk.injEq]
  norm_num

/-- Claim C7: the integrate-and-cull pass of the tick retains the first
entity (the main ball) unconditionally and is otherwise exactly a filter
keeping the entities whose post-integration centroid height is above the
lower bound `-5.0` — so every other entity at or below the bound is removed
from the entity list. -/
theorem c7_cull_below_bound (gravity_mulipiler microseconds : ℚ) :
    (∀ (e : Entity) (l : List Entity),
      integrateCull gravity_mulipiler microseconds true (e :: l)
        = procEntity gravity_mulipiler microseconds e
          :: integrateCull gravity_mulipiler microseconds false l)
    ∧ (∀ l : List Entity,
      integrateCull gravity_mulipiler microseconds false l
        = (l.map (procEntity gravity_mulipiler microseconds)).filter
            (fun e => decide ((-5 : ℚ) < e.shape.data.centroid.y))) := by
  constructor
  · intro e l
    simp [integrateCull]
  · intro l
    induction l with
    | nil => simp [integrateCull]
    | cons e l ih =>
      simp only [integrateCull, Bool.or_false, List.map_cons, List.filter_cons, ih]

/-- Claim C8: the tick's bounds check touches only the first entity (the
main ball): if its horizontal position exceeds 5 in absolute value or its
vertical position is below -5, its centroid is reset to the spawn point and
both its linear and angular velocity are zeroed; otherwise its kinematic
state is left unchanged by this step. -/
theorem c8_ball_respawn (G : Geom) (start : Vect) (flags : List Shape)
    (ball : Entity) (rest : List Entity) :
    (respawnStep G start flags (ball :: rest)).1 = ballRespawn start ball :: rest
    ∧ (5 < abs ball.shape.data.centroid.x ∨ ball.shape.data.centroid.y < -5 →
        (ballRespawn start ball).shape.data.centroid = start
        ∧ (ballRespawn start ball).shape.data.velocity = Vect.zero
        ∧ (ballRespawn start ball).shape.data.angular_velocity = 0)
    ∧ (¬ (5 < abs ball.shape.data.centroid.x ∨ ball.shape.data.centroid.y < -5) →
        ballRespawn start ball = ball) := by
  refine ⟨rfl, ?_, ?_⟩
  · intro h
    unfold ballRespawn
    rw [if_pos h]
    exact ⟨rfl, rfl, rfl⟩
  · intro h
    unfold ballRespawn
    rw [if_neg h]

/-- Witness for C8 at the spec's concrete out-of-bounds ball position
(0, -6): the ball is reset to the spawn point with both velocities zeroed. -/
theorem c8_ball_respawn_witness :
    (ballRespawn ⟨0, 0⟩ ballOut).shape.data.centroid = (⟨0, 0⟩ : Vect)
    ∧ (ballRespawn ⟨0, 0⟩ ballOut).shape.data.velocity = Vect.zero
    ∧ (ballRespawn ⟨0, 0⟩ ballOut).shape.data.angular_velocity = 0 :=
  (c8_ball_respawn G0 ⟨0, 0⟩ [] ballOut []).2.1 (Or.inr (by norm_num [ballOut]))

/-- Claim C5: in the pairwise pass, a (current, later) pair is skipped
entirely — both shapes unchanged — exactly when a live binding of the current
entity references the later entity's shape; otherwise the pair is collided:
the detection query runs, a missing or epsilon-zero contact leaves both
shapes unchanged, and a genuine contact is resolved. -/
theorem c5_bound_pairs_skip (G : Geom) (μs rm fm : ℚ) (sfe dfe : Bool) (alive : List Nat)
    (this other : Entity) :
    ((this.bindings.filter (fun bt => alive.contains bt.2)).any
        (fun bt => bt.2 == other.id) = true →
      pairAt G μs rm fm sfe dfe alive this other
        = ({ this with bindings := this.bindings.filter (fun bt => alive.contains bt.2) },
           other))
    ∧ ((this.bindings.filter (fun bt => alive.contains bt.2)).any
        (fun bt => bt.2 == other.id) = false →
      pairAt G μs rm fm sfe dfe alive this other
        = ({ this with
              bindings := this.bindings.filter (fun bt => alive.contains bt.2),
              shape := (Shape.collide G this.shape other.shape μs rm fm sfe dfe).1 },
           { other with shape := (Shape.collide G this.shape other.shape μs rm fm sfe dfe).2 }))
    ∧ (∀ s o : Shape, G.collision s o = none →
        Shape.collide G s o μs rm fm sfe dfe = (s, o))
    ∧ (∀ (s o : Shape) (v : Vertex), G.collision s o = some v →
        G.isCloseZero v.point = true →
        Shape.collide G s o μs rm fm sfe dfe = (s, o))
    ∧ (∀ (s o : Shape) (v : Vertex), G.collision s o = some v →
        G.isCloseZero v.point = false →
        Shape.collide G s o μs rm fm sfe dfe
          = Shape.resolve_collision_with G s o v μs rm fm sfe dfe) := by
  refine ⟨?_, ?_, ?_, ?_, ?_⟩
  · intro h
    unfold pairAt
    dsimp only
    rw [if_pos h]
  · intro h
    unfold pairAt
    dsimp only
    rw [if_neg (by rw [h]; simp)]
  · intro s o h
    unfold Shape.collide
    rw [h]
  · intro s o v h h2
    unfold Shape.collide
    rw [h]
    dsimp only
    rw [if_pos h2]
  · intro s o v h h2
    unfold Shape.collide
    rw [h]
    dsimp only
    rw [if_neg (by simp [h2])]

/-- Witness for C5 at a concrete bound pair: entity `eA` holds a live binding
to entity `eB` (id 1, alive), so the pair is skipped. -/
theorem c5_bound_pairs_skip_witness :
    pairAt G0 1 1 1 true true [1] eA eB
      = ({ eA with bindings := eA.bindings.filter (fun bt => [1].contains bt.2) }, eB) :=
  (c5_bound_pairs_skip G0 1 1 1 true true [1] eA eB).1 rfl

/-- Claim C4 (amended): the collision-exclusion step of the pairwise pass
re-validates the current entity's bindings and drops the dead ones; joint
enforcement skips (but does not remove) a binding whose partner reference no
longer resolves; the snapshot pass performs no re-validation at all — it
emits one owner-side display point per stored binding, dead or alive, and
leaves every entity's binding list untouched. -/
theorem c4_binding_liveness :
    (∀ (G : Geom) (μs rm fm : ℚ) (sfe dfe : Bool) (alive : List Nat) (this other : Entity),
      (pairAt G μs rm fm sfe dfe alive this other).1.bindings
        = this.bindings.filter (fun bt => alive.contains bt.2))
    ∧ (∀ (G : Geom) (μs rm fm : ℚ) (sfe dfe : Bool) (b : Binding) (tid : Nat)
        (bs : List (Binding × Nat)) (shape : Shape) (rest : List Entity),
      findShapeById rest tid = none →
      enforceLoop G μs rm fm sfe dfe ((b, tid) :: bs) shape rest
        = enforceLoop G μs rm fm sfe dfe bs shape rest)
    ∧ (∀ (G : Geom) (engine : Engine),
      (engine.prune_and_send_shapes G).2.hinges
        = (engine.entities.map (hingePoints G)).flatten
      ∧ (engine.prune_and_send_shapes G).1.entities = engine.entities) := by
  refine ⟨?_, ?_, ?_⟩
  · intro G μs rm fm sfe dfe alive this other
    unfold pairAt
    dsimp only
    split <;> rfl
  · intro G μs rm fm sfe dfe b tid bs shape rest h
    conv_lhs => rw [enforceLoop]
    dsimp only
    rw [h]
  · intro G engine
    exact ⟨rfl, rfl⟩

/-- Witness for C4 (amended) at a concrete dead binding: the enforcement loop
skips the binding whose partner id 7 resolves to nothing. -/
theorem c4_binding_liveness_witness :
    enforceLoop G0 1 1 1 true true [(hinge0, 7)] shape0 []
      = enforceLoop G0 1 1 1 true true [] shape0 [] :=
  c4_binding_liveness.2.1 G0 1 1 1 true true hinge0 7 [] shape0 [] rfl

/-- Counterexample to C4 as stated: an engine whose only (and therefore last)
entity holds a binding to the erased entity id 1.  The partner reference does
not resolve, yet after a full tick the snapshot still contains one hinge
display point for it, and the dead binding is still stored on the entity —
the snapshot pass neither re-validates nor drops it. -/
theorem c4_counterexample :
    findShapeById deadBindingEngine.entities 1 = none
    ∧ (deadBindingEngine.run_iteration G0 0).2.hinges.length = 1
    ∧ ((deadBindingEngine.run_iteration G0 0).1.entities.map Entity.bindings)
        = [[(hinge0, 1)]] := by
  refine ⟨rfl, ?_, ?_⟩ <;>
    norm_num [Engine.run_iteration, respawnStep, ballRespawn, integrateCull, procEntity,
      pairwisePass, pairwisePassAux, innerLoop, enforceLoop, findShapeById,
      Engine.prune_and_send_shapes, hingePoints, rigidPoints, unboundHingePoints,
      unboundRigidPoints, toGeometry, deadBindingEngine, deadBindingEntity, hinge0,
      shape0, G0, Vect.zero, List.filterMap_cons]

/-- Claim C9 is violated by the code: `Engine::create` (`lib.rs` line 229)
sets the polygon entity's `is_static` from the supplied `is_bindable` flag
instead of the supplied `is_static` flag.  At the failing input — one polygon
supplied with `is_static = true, is_bindable = false` — the created polygon
entity (the second entity, after the main ball) is not static.  The circle
path and `physics::Engine::new` carry both flags correctly, and the spec
says the flags are carried independently, so the polygon arm is a slip in the
code, not in the spec. -/
theorem c9_polygon_static_flag_bug :
    init9.polygons.map (fun p => (p.is_static, p.is_bindable)) = [(true, false)]
    ∧ (Engine.create G0 init9).entities.map (fun e => (e.is_static, e.is_bindable))
        = [(false, true), (false, false)] :=
  ⟨rfl, rfl⟩

/-! Helper lemmas for the head-entity invariant (claim C10). -/

theorem Entity.try_bind_id (G : Geom) (e : Entity) (t : Shape) (i : Nat) :
    (e.try_bind G t i).id = e.id := rfl

theorem Entity.try_bind_is_erasable (G : Geom) (e : Entity) (t : Shape) (i : Nat) :
    (e.try_bind G t i).is_erasable = e.is_erasable := rfl

theorem procEntity_id (g μs : ℚ) (e : Entity) : (procEntity g μs e).id = e.id := by
  unfold procEntity
  split <;> rfl

theorem procEntity_is_erasable (g μs : ℚ) (e : Entity) :
    (procEntity g μs e).is_erasable = e.is_erasable := by
  unfold procEntity
  split <;> rfl

theorem ballRespawn_id (start : Vect) (e : Entity) : (ballRespawn start e).id = e.id := by
  unfold ballRespawn
  dsimp only
  split <;> rfl

theorem ballRespawn_is_erasable (start : Vect) (e : Entity) :
    (ballRespawn start e).is_erasable = e.is_erasable := by
  unfold ballRespawn
  dsimp only
  split <;> rfl

theorem pairAt_fst_id (G : Geom) (μs rm fm : ℚ) (sfe dfe : Bool) (alive : List Nat)
    (this other : Entity) :
    (pairAt G μs rm fm sfe dfe alive this other).1.id = this.id := by
  unfold pairAt
  dsimp only
  split <;> rfl

theorem pairAt_fst_is_erasable (G : Geom) (μs rm fm : ℚ) (sfe dfe : Bool) (alive : List Nat)
    (this other : Entity) :
    (pairAt G μs rm fm sfe dfe alive this other).1.is_erasable = this.is_erasable := by
  unfold pairAt
  dsimp only
  split <;> rfl

theorem innerLoop_fst_id (G : Geom) (μs rm fm : ℚ) (sfe dfe : Bool) (alive : List Nat) :
    ∀ (l : List Entity) (this : Entity),
      (innerLoop G μs rm fm sfe dfe alive this l).1.id = this.id := by
  intro l
  induction l with
  | nil => intro this; rfl
  | cons o os ih =>
    intro this
    unfold innerLoop
    dsimp only
    rw [ih, pairAt_fst_id]

theorem innerLoop_fst_is_erasable (G : Geom) (μs rm fm : ℚ) (sfe dfe : Bool)
    (alive : List Nat) :
    ∀ (l : List Entity) (this : Entity),
      (innerLoop G μs rm fm sfe dfe alive this l).1.is_erasable = this.is_erasable := by
  intro l
  induction l with
  | nil => intro this; rfl
  | cons o os ih =>
    intro this
    unfold innerLoop
    dsimp only
    rw [ih, pairAt_fst_is_erasable]

/-- The pairwise pass maps a non-empty entity list to a non-empty list whose
head keeps the original head's identity and erasability. -/
theorem pairwisePass_head (G : Geom) (μs rm fm : ℚ) (sfe dfe : Bool) (alive : List Nat)
    (this : Entity) (rest : List Entity) :
    ∃ e t, pairwisePass G μs rm fm sfe dfe alive (this :: rest) = e :: t
      ∧ e.id = this.id ∧ e.is_erasable = this.is_erasable := by
  refine ⟨_, _, rfl, ?_, ?_⟩
  · show (Entity.id { (innerLoop G μs rm fm sfe dfe alive this rest).1 with
      shape := (enforceLoop G μs rm fm sfe dfe
        (innerLoop G μs rm fm sfe dfe alive this rest).1.bindings
        (innerLoop G μs rm fm sfe dfe alive this rest).1.shape
        (innerLoop G μs rm fm sfe dfe alive this rest).2).1 }) = this.id
    dsimp only
    exact innerLoop_fst_id G μs rm fm sfe dfe alive rest this
  · show (Entity.is_erasable { (innerLoop G μs rm fm sfe dfe alive this rest).1 with
      shape := (enforceLoop G μs rm fm sfe dfe
        (innerLoop G μs rm fm sfe dfe alive this rest).1.bindings
        (innerLoop G μs rm fm sfe dfe alive this rest).1.shape
        (innerLoop G μs rm fm sfe dfe alive this rest).2).1 }) = this.is_erasable
    dsimp only
    exact innerLoop_fst_is_erasable G μs rm fm sfe dfe alive rest this

theorem prune_entities (G : Geom) (s : Engine) :
    (s.prune_and_send_shapes G).1.entities = s.entities := rfl

theorem integrateCull_cons_main (g μs : ℚ) (e : Entity) (l : List Entity) :
    integrateCull g μs true (e :: l) = procEntity g μs e :: integrateCull g μs false l := by
  simp [integrateCull]

/-- The head-entity invariant: the entity list starts with the id-0,
non-erasable main ball. -/
def headOk (s : Engine) : Prop :=
  ∃ e t, s.entities = e :: t ∧ e.id = 0 ∧ e.is_erasable = false

theorem mainBallFirst_of_headOk (s : Engine) (h : headOk s) : mainBallFirst s := by
  obtain ⟨e, t, he, hid, her⟩ := h
  unfold mainBallFirst
  rw [he]
  exact ⟨hid, her⟩

theorem add_entity_headOk (G : Geom) (engine : Engine) (shape : Shape) (cfg : EntityCfg)
    (h : headOk engine) : headOk (engine.add_entity G shape cfg).1 := by
  obtain ⟨e, t, he, hid, her⟩ := h
  unfold headOk Engine.add_entity
  dsimp only
  rw [he]
  simp only [List.map_cons, List.cons_append]
  exact ⟨_, _, rfl, by rw [Entity.try_bind_id]; exact hid,
    by rw [Entity.try_bind_is_erasable]; exact her⟩

theorem foldl_preserve {α β : Type} (P : β → Prop) (f : β → α → β)
    (hstep : ∀ acc x, P acc → P (f acc x)) :
    ∀ (l : List α) (acc : β), P acc → P (l.foldl f acc) := by
  intro l
  induction l with
  | nil => intro acc h; exact h
  | cons x xs ih => intro acc h; exact ih _ (hstep acc x h)

theorem engine_new_headOk (G : Geom) (lvl : Level) : headOk (Engine.new G lvl) := by
  unfold Engine.new
  dsimp only
  rw [headOk, prune_entities]
  show headOk _
  apply foldl_preserve (P := headOk)
  · intro acc x hacc
    exact add_entity_headOk G acc _ _ hacc
  apply foldl_preserve (P := headOk)
  · intro acc x hacc
    exact add_entity_headOk G acc _ _ hacc
  exact ⟨_, _, rfl, rfl, rfl⟩

theorem run_iteration_headOk (G : Geom) (s : Engine) (μs : ℚ) (h : headOk s) :
    headOk (s.run_iteration G μs).1 := by
  obtain ⟨e, t, he, hid, her⟩ := h
  unfold headOk Engine.run_iteration
  rw [prune_entities]
  rw [he, integrateCull_cons_main]
  simp only [respawnStep]
  obtain ⟨e2, t2, hpp, hid2, her2⟩ := pairwisePass_head G μs s.restitution_mulipiler
    s.friction_mulipiler s.static_friction_enabled s.dynamic_friction_enabled
    ((ballRespawn s.main_ball_starting_position (procEntity s.gravity_mulipiler μs e)
        :: integrateCull s.gravity_mulipiler μs false t).map Entity.id)
    (ballRespawn s.main_ball_starting_position (procEntity s.gravity_mulipiler μs e))
    (integrateCull s.gravity_mulipiler μs false t)
  refine ⟨e2, t2, hpp, ?_, ?_⟩
  · rw [hid2, ballRespawn_id, procEntity_id]; exact hid
  · rw [her2, ballRespawn_is_erasable, procEntity_is_erasable]; exact her

theorem add_circle_headOk (G : Geom) (s : Engine) (c : Shape) (h : headOk s) :
    headOk (s.add_circle G c) :=
  add_entity_headOk G s c EntityCfg.default h

theorem add_polygon_headOk (G : Geom) (s : Engine) (p : Shape) (h : headOk s) :
    headOk (s.add_polygon G p) :=
  add_entity_headOk G s p EntityCfg.default h

theorem erase_at_headOk (G : Geom) (s : Engine) (point : Vect) (h : headOk s) :
    headOk (s.erase_at G point) := by
  obtain ⟨e, t, he, hid, her⟩ := h
  unfold Engine.erase_at
  cases hidx : s.entities.findIdx? (fun x => G.includes x.shape point) with
  | none => simp only [hidx]; exact ⟨e, t, he, hid, her⟩
  | some i =>
    simp only [hidx]
    cases i with
    | zero =>
      have hget : s.entities[0]? = some e := by rw [he]; simp
      simp only [hget, her, Bool.false_eq_true, if_false]
      exact ⟨e, t, he, hid, her⟩
    | succ j =>
      cases hget : s.entities[j + 1]? with
      | none => simp only [hget]; exact ⟨e, t, he, hid, her⟩
      | some x =>
        simp only [hget]
        by_cases hx : x.is_erasable = true
        · simp only [hx, if_true]
          refine ⟨e, t.eraseIdx j, ?_, hid, her⟩
          show ({ s with entities := s.entities.eraseIdx (j + 1) }).entities
              = e :: t.eraseIdx j
          dsimp only
          rw [he]
          exact List.eraseIdx_cons_succ
        · rw [if_neg hx]
          exact ⟨e, t, he, hid, her⟩

theorem add_hinge_headOk (G : Geom) (s : Engine) (point : Vect) (h : headOk s) :
    headOk (s.add_hinge G point) := by
  obtain ⟨e, t, he, hid, her⟩ := h
  unfold Engine.add_hinge
  cases hidx : s.entities.findIdx? (fun x => G.includes x.shape point && x.is_bindable) with
  | none => simp only [hidx]; exact ⟨e, t, he, hid, her⟩
  | some i =>
    simp only [hidx]
    rw [he]
    cases i with
    | zero => exact ⟨_, t, rfl, hid, her⟩
    | succ j => exact ⟨e, _, rfl, hid, her⟩

theorem add_rigid_headOk (G : Geom) (s : Engine) (point : Vect) (h : headOk s) :
    headOk (s.add_rigid G point) := by
  obtain ⟨e, t, he, hid, her⟩ := h
  unfold Engine.add_rigid
  cases hidx : s.entities.findIdx? (fun x => G.includes x.shape point && x.is_bindable) with
  | none => simp only [hidx]; exact ⟨e, t, he, hid, her⟩
  | some i =>
    simp only [hidx]
    rw [he]
    cases i with
    | zero => exact ⟨_, t, rfl, hid, her⟩
    | succ j => exact ⟨e, _, rfl, hid, her⟩

/-- Claim C10: in every reachable engine state the entity list is non-empty
and its first element is the main-ball entity created at construction (the
id-0 entity) with `is_erasable = false` — the cull exempts the first entity,
`erase_at` cannot remove a non-erasable entity, additions append at the end,
and the other operations keep the list — so the tick's direct access to the
first entity is always defined. -/
theorem c10_entities_head_invariant (lvl : Level) (s : Engine) (h : Reachable lvl s) :
    s.entities ≠ [] ∧ mainBallFirst s := by
  have key : headOk s := by
    induction h with
    | new G => exact engine_new_headOk G lvl
    | run_iteration G microseconds _ ih => exact run_iteration_headOk G _ microseconds ih
    | add_circle G c _ ih => exact add_circle_headOk G _ c ih
    | add_polygon G p _ ih => exact add_polygon_headOk G _ p ih
    | erase_at G p _ ih => exact erase_at_headOk G _ p ih
    | add_hinge G p _ ih => exact add_hinge_headOk G _ p ih
    | add_rigid G p _ ih => exact add_rigid_headOk G _ p ih
    | set_gravity v _ ih => exact ih
    | set_restitution v _ ih => exact ih
    | set_friction v _ ih => exact ih
    | set_static_friction b _ ih => exact ih
    | set_dynamic_friction b _ ih => exact ih
  refine ⟨?_, mainBallFirst_of_headOk s key⟩
  obtain ⟨e, t, he, _, _⟩ := key
  simp [he]

/-- Witness for C10 at the freshly constructed trivial level. -/
theorem c10_entities_head_invariant_witness :
    (Engine.new G0 lvl0).entities ≠ [] ∧ mainBallFirst (Engine.new G0 lvl0) :=
  c10_entities_head_invariant lvl0 (Engine.new G0 lvl0) (Reachable.new G0)

end WhatIf
